import Mathlib

/-!
Verification of the pagination/cache/fetch coordinator of the Pokemon list
application (`src/hooks/usePokemonList.ts`, `src/helpers/localStorage.ts`).

The coordinator state and its transition functions are shallowly embedded:
each React `useState` cell becomes a field of `CoordState`, each effect or
callback becomes a pure function `CoordState → CoordState` (time is passed
explicitly as an `Int` millisecond clock, fetch responses as explicit
arguments).  JavaScript numbers that hold integer values are modelled as
`Int`; the value `NaN` that `parseInt` can return is modelled as `none` of
`Option Int` (JS `Set` membership uses SameValueZero, under which `NaN`
equals `NaN`, exactly as `none = none`).
-/

/-- `CachedPokemon` from `src/helpers/localStorage.ts`: `{ id: number; name: string }`.
The `id` field is produced by `parseInt` and may be `NaN`, hence `Option Int`. -/
structure CachedPokemon where
  id : Option Int
  name : String
  deriving DecidableEq

/-- `PaginationState` from `src/helpers/localStorage.ts`:
`{ currentPage: number; totalLoaded: number; hasMore: boolean; lastFetchTime: number }`. -/
structure PaginationState where
  currentPage : Int
  totalLoaded : Int
  hasMore : Bool
  lastFetchTime : Int
  deriving DecidableEq

/-- `NamedAPIResource` from `src/types/api.ts`: a `name`/`url` pair as returned by
the list endpoint. -/
structure NamedAPIResource where
  name : String
  url : String
  deriving DecidableEq

/-- The fields of the list response that `usePokemonList` reads:
`results` (the page) and `next` (cursor URL or `null`).  The unused `count` and
`previous` fields are omitted. -/
structure PokemonListResponse where
  results : List NamedAPIResource
  next : Option String
  deriving DecidableEq

/-- `ITEMS_PER_PAGE = 20` from `usePokemonList.ts`. -/
def ITEMS_PER_PAGE : Int := 20

/-- `CACHE_DURATION = 5 * 60 * 1000` (5 minutes) from `usePokemonList.ts`. -/
def CACHE_DURATION : Int := 5 * 60 * 1000

/-- Models `url.split("/")` for the one-character separator `"/"`, on the
character list of the string (JS `"".split("/") = [""]`, `"/".split("/") = ["", ""]`). -/
def splitSlash : List Char → List (List Char)
  | [] => [[]]
  | c :: cs =>
    if c = '/' then [] :: splitSlash cs
    else
      match splitSlash cs with
      | [] => [[c]]
      | p :: ps => (c :: p) :: ps

/-- Numeric value of a decimal digit character (`c.toNat - '0'.toNat`). -/
def charToDigit (c : Char) : Nat := c.toNat - 48

/-- Folds a most-significant-first digit-character list into a `Nat`. -/
def digitsToNat (ds : List Char) : Nat :=
  ds.foldl (fun a c => 10 * a + charToDigit c) 0

/-- Consume a maximal nonempty run of leading decimal digits, returning its value
and the rest of the input; `none` when the input does not start with a digit. -/
def parseNatState (cs : List Char) : Option (Nat × List Char) :=
  let ds := cs.takeWhile Char.isDigit
  if ds.isEmpty then none
  else some (digitsToNat ds, cs.dropWhile Char.isDigit)

/-- Optional sign followed by a digit run.  Together with `parseNatState` this
models the JavaScript `parseInt` builtin on the inputs this app feeds it
(decimal digit runs, possibly signed; no leading whitespace, no hex prefix —
none of which occur in the URL path segments or in the JSON this app stores):
leading digits are converted, trailing junk is ignored, and an input with no
leading digits yields `NaN` (`none`). -/
def parseIntState (cs : List Char) : Option (Int × List Char) :=
  match cs with
  | [] => none
  | c :: rest =>
    if c = '-' then (parseNatState rest).map (fun p => (-(p.1 : Int), p.2))
    else if c = '+' then (parseNatState rest).map (fun p => ((p.1 : Int), p.2))
    else (parseNatState cs).map (fun p => ((p.1 : Int), p.2))

/-- `parseInt` applied to a whole string (or to `undefined`, modelled by `none`),
keeping only the converted value. -/
def parseIntJs (s : Option (List Char)) : Option Int :=
  match s with
  | none => none
  | some cs => (parseIntState cs).map (fun p => p.1)

/-- `urlParts[urlParts.length - 2]` from the hook: JS indexing yields `undefined`
when the list has fewer than two elements (index `-1`). -/
def secondToLast (l : List (List Char)) : Option (List Char) :=
  if l.length < 2 then none else l.get? (l.length - 2)

/-- The per-resource transform of `usePokemonList`'s settled-query effect:
`const urlParts = result.url.split("/"); const id = parseInt(urlParts[urlParts.length - 2]);
return { id, name: result.name };`. -/
def parsePokemon (r : NamedAPIResource) : CachedPokemon :=
  { id := parseIntJs (secondToLast (splitSlash r.url.toList)), name := r.name }

/-- `pokemonListData.results.map(...)` — the parsed page (`newPokemon` in the hook). -/
def parsePage (results : List NamedAPIResource) : List CachedPokemon :=
  results.map parsePokemon

/-- The two cache entries of the key-value store, typed: the list under the key
`"pokemons"` and the pagination record under `"pokemon_pagination"`.  `none`
models an absent (or unparseable, hence `undefined`-returning) entry. -/
structure CacheStore where
  list : Option (List CachedPokemon)
  pag : Option PaginationState
  deriving DecidableEq

/-- `loadPokemonList` from `localStorage.ts` (absent or malformed ⇒ `undefined`). -/
def loadPokemonList (st : CacheStore) : Option (List CachedPokemon) := st.list

/-- `savePokemonList` from `localStorage.ts`. -/
def savePokemonList (l : List CachedPokemon) (st : CacheStore) : CacheStore :=
  { st with list := some l }

/-- `loadPaginationState` from `localStorage.ts`. -/
def loadPaginationState (st : CacheStore) : Option PaginationState := st.pag

/-- `savePaginationState` from `localStorage.ts`. -/
def savePaginationState (p : PaginationState) (st : CacheStore) : CacheStore :=
  { st with pag := some p }

/-- `clearPokemonData` from `localStorage.ts`: removes both keys. -/
def clearPokemonData (_st : CacheStore) : CacheStore :=
  { list := none, pag := none }

/-- The coordinator state of `usePokemonList`: one field per `useState` cell,
plus `isFetching` (the flag reported by the query collaborator) and the
key-value store the hook reads and writes. -/
structure CoordState where
  allPokemon : List CachedPokemon
  paginationState : PaginationState
  currentOffset : Int
  skipQuery : Bool
  isInitialLoading : Bool
  error : Option String
  isLoadingMore : Bool
  isFetching : Bool
  store : CacheStore
  deriving DecidableEq

/-- The initial values of the `useState` cells at mount, over a given store. -/
def initialState (store : CacheStore) : CoordState :=
  { allPokemon := []
    paginationState := { currentPage := 0, totalLoaded := 0, hasMore := true, lastFetchTime := 0 }
    currentOffset := 0
    skipQuery := true
    isInitialLoading := true
    error := none
    isLoadingMore := false
    isFetching := false
    store := store }

/-- The mount effect of `usePokemonList` ("Load cached data on mount"): if both
cache entries are present and `now - lastFetchTime < CACHE_DURATION`, hydrate
from cache and return early; if both are present but stale, clear the store;
in every non-hydrating case set `currentOffset = 0`, `skipQuery = false`,
`isInitialLoading = false`. -/
def loadCachedData (now : Int) (s : CoordState) : CoordState :=
  match loadPokemonList s.store, loadPaginationState s.store with
  | some cachedPokemon, some cachedPagination =>
    if now - cachedPagination.lastFetchTime < CACHE_DURATION then
      { s with allPokemon := cachedPokemon
               paginationState := cachedPagination
               currentOffset := cachedPagination.currentPage * ITEMS_PER_PAGE
               isInitialLoading := false }
    else
      { s with store := clearPokemonData s.store
               currentOffset := 0
               skipQuery := false
               isInitialLoading := false }
  | _, _ =>
    { s with currentOffset := 0
             skipQuery := false
             isInitialLoading := false }

/-- The offset > 0 merge of the settled-query effect: collect the ids already
present, keep only the new items whose id is unseen, append them in page order. -/
def mergePage (prev newPokemon : List CachedPokemon) : List CachedPokemon :=
  let existingIds := prev.map (fun p => p.id)
  let uniqueNewPokemon := newPokemon.filter (fun p => !(existingIds.contains p.id))
  prev ++ uniqueNewPokemon

/-- The "Handle query result" effect of `usePokemonList`, for a successfully
settled fetch (`pokemonListData && !isFetching && !queryError`): parse the page;
at offset 0 replace the list wholesale, otherwise merge; recompute and persist
the pagination state; close the fetch gate, clear the error and the
loading-more flag. -/
def onFetchSettled (now : Int) (resp : PokemonListResponse) (s : CoordState) : CoordState :=
  let newPokemon := parsePage resp.results
  if s.currentOffset = 0 then
    let nps : PaginationState :=
      { currentPage := 0
        totalLoaded := (newPokemon.length : Int)
        hasMore := resp.next.isSome
        lastFetchTime := now }
    { s with allPokemon := newPokemon
             paginationState := nps
             store := savePaginationState nps (savePokemonList newPokemon s.store)
             skipQuery := true
             error := none
             isLoadingMore := false }
  else
    let existingIds := s.allPokemon.map (fun p => p.id)
    let uniqueNewPokemon := newPokemon.filter (fun p => !(existingIds.contains p.id))
    let updatedList := s.allPokemon ++ uniqueNewPokemon
    let nps : PaginationState :=
      { currentPage := s.currentOffset.fdiv ITEMS_PER_PAGE
        totalLoaded := (s.allPokemon.length : Int) + (uniqueNewPokemon.length : Int)
        hasMore := resp.next.isSome
        lastFetchTime := now }
    { s with allPokemon := updatedList
             paginationState := nps
             store := savePaginationState nps (savePokemonList updatedList s.store)
             skipQuery := true
             error := none
             isLoadingMore := false }

/-- The "Handle query errors" effect of `usePokemonList` (a fetch failed). -/
def onFetchFailed (s : CoordState) : CoordState :=
  { s with error := some "Failed to fetch Pokemon data"
           skipQuery := true
           isLoadingMore := false }

/-- `loadMoreData` from `usePokemonList`. -/
def loadMoreData (s : CoordState) : CoordState :=
  if ¬ s.isFetching ∧ ¬ s.isLoadingMore ∧ s.paginationState.hasMore = true
      ∧ s.skipQuery ∧ ¬ s.isInitialLoading then
    { s with isLoadingMore := true
             currentOffset := s.currentOffset + ITEMS_PER_PAGE
             skipQuery := false }
  else s

/-- `handleRefresh` from `usePokemonList`. -/
def handleRefresh (s : CoordState) : CoordState :=
  { s with store := clearPokemonData s.store
           allPokemon := []
           paginationState := { currentPage := 0, totalLoaded := 0, hasMore := true, lastFetchTime := 0 }
           error := none
           currentOffset := 0
           skipQuery := false
           isLoadingMore := false }

/-- `handleRetryLoadMore` from `usePokemonList`: clear the error, then `loadMoreData`. -/
def handleRetryLoadMore (s : CoordState) : CoordState :=
  loadMoreData { s with error := none }

/-- The coordinator events that can occur after mount. -/
inductive CoordEvent where
  | settle (now : Int) (resp : PokemonListResponse)
  | fetchFail
  | more
  | refreshEv
  | retry
  deriving DecidableEq

/-- One coordinator transition per event. -/
def stepEvent (s : CoordState) (e : CoordEvent) : CoordState :=
  match e with
  | .settle now resp => onFetchSettled now resp s
  | .fetchFail => onFetchFailed s
  | .more => loadMoreData s
  | .refreshEv => handleRefresh s
  | .retry => handleRetryLoadMore s

/-- Run a sequence of coordinator events. -/
def runEvents (s : CoordState) (es : List CoordEvent) : CoordState :=
  es.foldl stepEvent s

/-- A settle event's page has pairwise-distinct parsed ids (vacuously true for
the other events). -/
def pageIdsNodup : CoordEvent → Bool
  | .settle _ resp => decide ((parsePage resp.results).map (fun p => p.id)).Nodup
  | _ => true

/-- The condition under which the mount effect hydrates from cache: both entries
present and fresh. -/
def cacheValidB (now : Int) (st : CacheStore) : Bool :=
  match st.list, st.pag with
  | some _, some pg => decide (now - pg.lastFetchTime < CACHE_DURATION)
  | _, _ => false

/-- The parsed page item as the spec words it: "id parsed as an integer from the
second-to-last '/'-delimited segment of its url, paired with its name"
(second-to-last = index 1 of the reversed segment list). -/
def specParsedItem (r : NamedAPIResource) : CachedPokemon :=
  { id := parseIntJs ((splitSlash r.url.toList).reverse.get? 1), name := r.name }

/-- Decimal digit characters of a positive number, most significant first; the
first argument is recursion fuel (any bound on the number works). -/
def encodeNatAux : Nat → Nat → List Char
  | 0, _ => []
  | fuel + 1, n =>
    if n = 0 then [] else encodeNatAux fuel (n / 10) ++ [Nat.digitChar (n % 10)]

/-- JSON text of a natural number: its decimal digits, most significant first
(`JSON.stringify` of a nonnegative integer-valued JS number). -/
def encodeNatChars (n : Nat) : List Char :=
  if n = 0 then ['0'] else encodeNatAux n n

/-- JSON text of an integer-valued JS number (`JSON.stringify`). -/
def encodeIntChars (n : Int) : List Char :=
  if n < 0 then '-' :: encodeNatChars n.natAbs else encodeNatChars n.natAbs

/-- JSON text of a boolean (`JSON.stringify`). -/
def encodeBoolChars (b : Bool) : List Char :=
  if b then ['t', 'r', 'u', 'e'] else ['f', 'a', 'l', 's', 'e']

/-- `JSON.stringify` of a `PaginationState`: a four-field object, fields in the
order in which the hook constructs the record. -/
def encodePaginationState (p : PaginationState) : List Char :=
  "\x7b\"currentPage\":".toList ++ encodeIntChars p.currentPage
    ++ ",\"totalLoaded\":".toList ++ encodeIntChars p.totalLoaded
    ++ ",\"hasMore\":".toList ++ encodeBoolChars p.hasMore
    ++ ",\"lastFetchTime\":".toList ++ encodeIntChars p.lastFetchTime
    ++ "\x7d".toList

/-- Strip an expected literal from the front of the input. -/
def stripLit : List Char → List Char → Option (List Char)
  | [], input => some input
  | _ :: _, [] => none
  | p :: ps, c :: cs => if c = p then stripLit ps cs else none

/-- Parse a JSON boolean literal. -/
def parseBoolState (cs : List Char) : Option (Bool × List Char) :=
  match stripLit ['t', 'r', 'u', 'e'] cs with
  | some rest => some (true, rest)
  | none =>
    match stripLit ['f', 'a', 'l', 's', 'e'] cs with
    | some rest => some (false, rest)
    | none => none

/-- `JSON.parse` specialised to the exact object layout `savePaginationState`
writes: the four fields of `PaginationState` in fixed order, integer and
boolean values.  (`JSON.parse` is a correct JSON parser, so on the strings
`JSON.stringify` produces for this record it returns exactly this result.) -/
def decodePaginationState (cs : List Char) : Option PaginationState :=
  (stripLit "\x7b\"currentPage\":".toList cs).bind fun r1 =>
  (parseIntState r1).bind fun cpr =>
  (stripLit ",\"totalLoaded\":".toList cpr.2).bind fun r3 =>
  (parseIntState r3).bind fun totr =>
  (stripLit ",\"hasMore\":".toList totr.2).bind fun r5 =>
  (parseBoolState r5).bind fun hmr =>
  (stripLit ",\"lastFetchTime\":".toList hmr.2).bind fun r7 =>
  (parseIntState r7).bind fun lftr =>
  (stripLit "\x7d".toList lftr.2).bind fun r9 =>
  if r9.isEmpty then
    some { currentPage := cpr.1, totalLoaded := totr.1
           hasMore := hmr.1, lastFetchTime := lftr.1 }
  else none

namespace LS

/-- The browser `localStorage`: a string key-value map. -/
abbrev Store := List (String × String)

/-- `localStorage.getItem` (`null`, i.e. `none`, when the key is absent). -/
def getItem (key : String) (st : Store) : Option String :=
  (st.find? (fun kv => kv.1 == key)).map (fun kv => kv.2)

/-- `localStorage.setItem`: at most one value per key. -/
def setItem (key value : String) (st : Store) : Store :=
  (key, value) :: st.filter (fun kv => !(kv.1 == key))

/-- `localStorage.removeItem`. -/
def removeItem (key : String) (st : Store) : Store :=
  st.filter (fun kv => !(kv.1 == key))

/-- `savePaginationState` from `localStorage.ts`, at the string level:
`localStorage.setItem("pokemon_pagination", JSON.stringify(state))`. -/
def savePaginationState (state : PaginationState) (st : Store) : Store :=
  setItem "pokemon_pagination" (encodePaginationState state).asString st

/-- `loadPaginationState` from `localStorage.ts`, at the string level:
read the key `"pokemon_pagination"`, `undefined` (`none`) when absent,
otherwise `JSON.parse` the stored text. -/
def loadPaginationState (st : Store) : Option PaginationState :=
  match getItem "pokemon_pagination" st with
  | none => none
  | some data => decodePaginationState data.toList

end LS

/-- A concrete mid-session coordinator state (one item loaded, offset advanced
to 20, idle) used to instantiate the theorems on explicit inputs. -/
def sampleState : CoordState :=
  { allPokemon := [{ id := some 1, name := "bulbasaur" }]
    paginationState := { currentPage := 0, totalLoaded := 1, hasMore := true, lastFetchTime := 0 }
    currentOffset := 20
    skipQuery := true
    isInitialLoading := false
    error := none
    isLoadingMore := false
    isFetching := false
    store := { list := none, pag := none } }

/-- A concrete result page (ids 2 and 3). -/
def samplePage : PokemonListResponse :=
  { results := [{ name := "ivysaur", url := "https://pokeapi.co/api/v2/pokemon/2/" },
                { name := "venusaur", url := "https://pokeapi.co/api/v2/pokemon/3/" }]
    next := none }

/-- A concrete result page that overlaps `sampleState` (ids 1 and 2). -/
def sampleOverlapPage : PokemonListResponse :=
  { results := [{ name := "bulbasaur", url := "https://pokeapi.co/api/v2/pokemon/1/" },
                { name := "ivysaur", url := "https://pokeapi.co/api/v2/pokemon/2/" }]
    next := some "https://pokeapi.co/api/v2/pokemon?offset=20&limit=20" }

/-- A concrete fresh cache: entries present, `lastFetchTime = 100`. -/
def sampleFreshStore : CacheStore :=
  { list := some [{ id := some 1, name := "bulbasaur" }]
    pag := some { currentPage := 1, totalLoaded := 20, hasMore := true, lastFetchTime := 100 } }

/-- The coordinator state right after mounting over an empty store. -/
def sampleStart : CoordState :=
  loadCachedData 0 (initialState { list := none, pag := none })

/-- A concrete event trace: an offset-0 settle, a load-more, then an
overlapping settle (the spec's Scenario B shape). -/
def sampleEvents : List CoordEvent :=
  [CoordEvent.settle 0 sampleOverlapPage, CoordEvent.more, CoordEvent.settle 5 samplePage]

theorem reverse_get?_one {α : Type} (l : List α) :
    l.reverse.get? 1 = if l.length < 2 then none else l.get? (l.length - 2) := by
  by_cases h : l.length < 2
  · rw [if_pos h]
    apply List.get?_eq_none.mpr
    simp
    omega
  · rw [if_neg h]
    have h2 : 1 < l.length := by omega
    have h3 : l.length - 1 - 1 = l.length - 2 := by omega
    rw [List.get?_reverse h2, h3]

theorem parsePokemon_eq_specParsedItem (r : NamedAPIResource) :
    parsePokemon r = specParsedItem r := by
  unfold parsePokemon specParsedItem secondToLast
  rw [reverse_get?_one]

theorem settled_allPokemon_of_offset0 (now : Int) (resp : PokemonListResponse)
    (s : CoordState) (h : s.currentOffset = 0) :
    (onFetchSettled now resp s).allPokemon = parsePage resp.results := by
  simp [onFetchSettled, h]

theorem settled_allPokemon_of_offsetPos (now : Int) (resp : PokemonListResponse)
    (s : CoordState) (h : ¬ s.currentOffset = 0) :
    (onFetchSettled now resp s).allPokemon
      = mergePage s.allPokemon (parsePage resp.results) := by
  simp [onFetchSettled, mergePage, h]

theorem loadMoreData_allPokemon (s : CoordState) :
    (loadMoreData s).allPokemon = s.allPokemon := by
  unfold loadMoreData
  split <;> rfl

theorem mergePage_ids_nodup (prev newPokemon : List CachedPokemon)
    (h1 : (prev.map (fun p => p.id)).Nodup)
    (h2 : (newPokemon.map (fun p => p.id)).Nodup) :
    ((mergePage prev newPokemon).map (fun p => p.id)).Nodup := by
  unfold mergePage
  rw [List.map_append, List.nodup_append]
  refine ⟨h1, ?_, ?_⟩
  · exact List.Nodup.sublist
      (List.Sublist.map (fun p => p.id) (List.filter_sublist newPokemon)) h2
  · intro a ha hb
    obtain ⟨q, hq, hqe⟩ := List.mem_map.mp hb
    obtain ⟨hqmem, hqf⟩ := List.mem_filter.mp hq
    simp only [List.contains, List.elem_eq_mem, Bool.not_eq_true', decide_eq_false_iff_not] at hqf
    exact hqf (hqe ▸ ha)

theorem stripLit_append (p r : List Char) : stripLit p (p ++ r) = some r := by
  induction p with
  | nil => rfl
  | cons c cs ih => simp [stripLit, ih]

theorem encodeNatAux_eq_digits (fuel n : Nat) (h : n ≤ fuel) :
    encodeNatAux fuel n = ((Nat.digits 10 n).reverse).map Nat.digitChar := by
  induction fuel generalizing n with
  | zero =>
    have : n = 0 := by omega
    simp [encodeNatAux, this]
  | succ f ih =>
    by_cases hn : n = 0
    · simp [encodeNatAux, hn]
    · have hpos : 0 < n := Nat.pos_of_ne_zero hn
      have hle : n / 10 ≤ f := by
        have := Nat.div_lt_self hpos (by norm_num : 1 < 10)
        omega
      rw [encodeNatAux, if_neg hn, ih _ hle,
        Nat.digits_def' (by norm_num : 1 < 10) hpos]
      simp

theorem encodeNatChars_ne_nil (n : Nat) : encodeNatChars n ≠ [] := by
  unfold encodeNatChars
  split
  · simp
  · rw [encodeNatAux_eq_digits n n le_rfl]
    simp [Nat.digits_ne_nil_iff_ne_zero]
    assumption

theorem encodeNatChars_all_digits (n : Nat) :
    ∀ c ∈ encodeNatChars n, c.isDigit = true := by
  intro c hc
  unfold encodeNatChars at hc
  split at hc
  · simp at hc
    subst hc
    decide
  · rw [encodeNatAux_eq_digits n n le_rfl] at hc
    obtain ⟨d, hd, rfl⟩ := List.mem_map.mp hc
    have hd10 : d < 10 :=
      Nat.digits_lt_base (by norm_num) (List.mem_reverse.mp hd)
    interval_cases d <;> decide

theorem digitsToNat_aux (l : List Nat) (a : Nat) (h : ∀ d ∈ l, d < 10) :
    (l.map Nat.digitChar).foldl (fun acc c => 10 * acc + charToDigit c) a
      = a * 10 ^ l.length + Nat.ofDigits 10 l.reverse := by
  induction l generalizing a with
  | nil => simp [Nat.ofDigits]
  | cons d tl ih =>
    have hd10 : d < 10 := h d (List.mem_cons_self _ _)
    have hcd : charToDigit (Nat.digitChar d) = d := by
      interval_cases d <;> decide
    simp only [List.map_cons, List.foldl_cons, hcd]
    rw [ih _ (fun x hx => h x (List.mem_cons_of_mem _ hx))]
    rw [List.reverse_cons, Nat.ofDigits_append]
    simp [Nat.ofDigits]
    ring

theorem digitsToNat_encodeNatChars (n : Nat) : digitsToNat (encodeNatChars n) = n := by
  unfold encodeNatChars
  split
  · subst_vars
    decide
  · rw [encodeNatAux_eq_digits n n le_rfl]
    unfold digitsToNat
    rw [digitsToNat_aux _ 0
      (fun d hd => Nat.digits_lt_base (by norm_num) (List.mem_reverse.mp hd))]
    simp [Nat.ofDigits_digits]

theorem takeWhile_all_append (p : Char → Bool) (l : List Char) (c : Char) (r : List Char)
    (hl : ∀ a ∈ l, p a = true) (hc : p c = false) :
    ((l ++ c :: r).takeWhile p = l) ∧ ((l ++ c :: r).dropWhile p = c :: r) := by
  induction l with
  | nil => simp [List.takeWhile_cons, List.dropWhile_cons, hc]
  | cons a tl ih =>
    have ha : p a = true := hl a (List.mem_cons_self _ _)
    have ih2 := ih (fun x hx => hl x (List.mem_cons_of_mem _ hx))
    simp [List.takeWhile_cons, List.dropWhile_cons, ha, ih2.1, ih2.2]

theorem parseNatState_encode (n : Nat) (c : Char) (r : List Char) (hc : c.isDigit = false) :
    parseNatState (encodeNatChars n ++ c :: r) = some (n, c :: r) := by
  unfold parseNatState
  obtain ⟨ht, hd⟩ :=
    takeWhile_all_append Char.isDigit (encodeNatChars n) c r (encodeNatChars_all_digits n) hc
  simp only [ht, hd]
  rw [if_neg (by simp [List.isEmpty_iff, encodeNatChars_ne_nil])]
  rw [digitsToNat_encodeNatChars]

theorem stripLit_cons_append (c : Char) (p r : List Char) :
    stripLit (c :: p) (c :: (p ++ r)) = some r := by
  simp [stripLit, stripLit_append]

theorem parseIntState_encode (n : Int) (c : Char) (r : List Char) (hc : c.isDigit = false) :
    parseIntState (encodeIntChars n ++ c :: r) = some (n, c :: r) := by
  unfold encodeIntChars
  by_cases hn : n < 0
  · rw [if_pos hn]
    show parseIntState ('-' :: (encodeNatChars n.natAbs ++ c :: r)) = _
    rw [show parseIntState ('-' :: (encodeNatChars n.natAbs ++ c :: r))
        = (parseNatState (encodeNatChars n.natAbs ++ c :: r)).map
            (fun p => (-(p.1 : Int), p.2)) from rfl]
    rw [parseNatState_encode _ _ _ hc]
    simp only [Option.map_some']
    have hnn : -((n.natAbs : Nat) : Int) = n := by omega
    rw [hnn]
  · rw [if_neg hn]
    obtain ⟨d, ds, hds⟩ : ∃ d ds, encodeNatChars n.natAbs = d :: ds := by
      cases hE : encodeNatChars n.natAbs with
      | nil => exact absurd hE (encodeNatChars_ne_nil _)
      | cons d ds => exact ⟨d, ds, rfl⟩
    have hd : d.isDigit = true :=
      encodeNatChars_all_digits n.natAbs d (hds ▸ List.mem_cons_self _ _)
    have hne1 : d ≠ '-' := by
      intro h
      rw [h] at hd
      exact absurd hd (by decide)
    have hne2 : d ≠ '+' := by
      intro h
      rw [h] at hd
      exact absurd hd (by decide)
    rw [hds, List.cons_append]
    simp only [parseIntState, if_neg hne1, if_neg hne2]
    rw [← List.cons_append, ← hds, parseNatState_encode _ _ _ hc]
    simp only [Option.map_some']
    have hnn : ((n.natAbs : Nat) : Int) = n := by omega
    rw [hnn]

theorem parseBoolState_encode (b : Bool) (r : List Char) :
    parseBoolState (encodeBoolChars b ++ r) = some (b, r) := by
  cases b
  · show parseBoolState (['f', 'a', 'l', 's', 'e'] ++ r) = some (false, r)
    unfold parseBoolState
    have hno : stripLit ['t', 'r', 'u', 'e'] (['f', 'a', 'l', 's', 'e'] ++ r) = none := by
      simp [stripLit]
    rw [hno, stripLit_append]
  · show parseBoolState (['t', 'r', 'u', 'e'] ++ r) = some (true, r)
    unfold parseBoolState
    rw [stripLit_append]

theorem decode_encode (p : PaginationState) :
    decodePaginationState (encodePaginationState p) = some p := by
  unfold encodePaginationState decodePaginationState
  have h1 : (",\"totalLoaded\":".toList : List Char)
      = ',' :: "\"totalLoaded\":".toList := rfl
  have h2 : (",\"hasMore\":".toList : List Char)
      = ',' :: "\"hasMore\":".toList := rfl
  have h3 : (",\"lastFetchTime\":".toList : List Char)
      = ',' :: "\"lastFetchTime\":".toList := rfl
  have h4 : ("\x7d".toList : List Char) = ['\x7d'] := rfl
  rw [h1, h2, h3, h4]
  simp only [List.append_assoc, List.cons_append]
  rw [stripLit_append]
  simp only [Option.some_bind]
  rw [parseIntState_encode _ _ _ (by decide)]
  simp only [Option.some_bind]
  rw [stripLit_cons_append]
  simp only [Option.some_bind]
  rw [parseIntState_encode _ _ _ (by decide)]
  simp only [Option.some_bind]
  rw [stripLit_cons_append]
  simp only [Option.some_bind]
  rw [parseBoolState_encode]
  simp only [Option.some_bind]
  rw [stripLit_cons_append]
  simp only [Option.some_bind]
  rw [parseIntState_encode _ _ _ (by decide)]
  simp only [Option.some_bind]
  rw [show stripLit ['\x7d'] ['\x7d'] = some [] from rfl]
  simp only [Option.some_bind]
  rfl

/-- C9: for every `PaginationState`, saving it and then loading it from an
unmodified store returns the same state — `JSON.stringify`/`JSON.parse`
round-trip under the key `"pokemon_pagination"`. -/
theorem pagination_roundtrip (p : PaginationState) (st : LS.Store) :
    LS.loadPaginationState (LS.savePaginationState p st) = some p := by
  have hfind : LS.getItem "pokemon_pagination" (LS.savePaginationState p st)
      = some (encodePaginationState p).asString := by
    unfold LS.savePaginationState LS.setItem LS.getItem
    rw [List.find?_cons_of_pos _ (by simp)]
    rfl
  unfold LS.loadPaginationState
  rw [hfind]
  show decodePaginationState ((encodePaginationState p).asString).toList = some p
  rw [show ((encodePaginationState p).asString).toList = encodePaginationState p from rfl]
  exact decode_encode p

theorem stepEvent_ids_nodup (s : CoordState) (e : CoordEvent)
    (h0 : (s.allPokemon.map (fun p => p.id)).Nodup)
    (hp : pageIdsNodup e = true) :
    ((stepEvent s e).allPokemon.map (fun p => p.id)).Nodup := by
  cases e with
  | settle now resp =>
    have hpage : ((parsePage resp.results).map (fun p => p.id)).Nodup := by
      simpa [pageIdsNodup] using hp
    by_cases hoff : s.currentOffset = 0
    · rw [show stepEvent s (.settle now resp) = onFetchSettled now resp s from rfl,
        settled_allPokemon_of_offset0 now resp s hoff]
      exact hpage
    · rw [show stepEvent s (.settle now resp) = onFetchSettled now resp s from rfl,
        settled_allPokemon_of_offsetPos now resp s hoff]
      exact mergePage_ids_nodup _ _ h0 hpage
  | fetchFail => exact h0
  | more =>
    rw [show stepEvent s .more = loadMoreData s from rfl, loadMoreData_allPokemon]
    exact h0
  | refreshEv => simp [stepEvent, handleRefresh]
  | retry =>
    rw [show stepEvent s .retry = loadMoreData { s with error := none } from rfl,
      loadMoreData_allPokemon]
    exact h0

/-- C1 (amended): for every sequence of coordinator events — offset-0 wholesale
replacements, offset > 0 merges, load-mores, failures, retries and refreshes —
starting from a state whose accumulated ids are pairwise distinct, the
accumulated list never contains two entries with the same id, PROVIDED each
settling page's own parsed ids are pairwise distinct (the code deduplicates
across fetches but not within a single page, see the counterexample). -/
theorem accumulatedList_ids_nodup (s : CoordState) (es : List CoordEvent)
    (h0 : (s.allPokemon.map (fun p => p.id)).Nodup)
    (hp : ∀ e ∈ es, pageIdsNodup e = true) :
    ((runEvents s es).allPokemon.map (fun p => p.id)).Nodup := by
  induction es generalizing s with
  | nil => exact h0
  | cons e tl ih =>
    rw [show runEvents s (e :: tl) = runEvents (stepEvent s e) tl from rfl]
    exact ih (stepEvent s e)
      (stepEvent_ids_nodup s e h0 (hp e (List.mem_cons_self _ _)))
      (fun x hx => hp x (List.mem_cons_of_mem _ hx))

/-- Witness for C1's amended theorem at a concrete trace (mount over an empty
store; offset-0 settle with ids 1,2; load-more; overlapping settle with
ids 2,3). -/
theorem accumulatedList_ids_nodup_witness :
    ((sampleStart.allPokemon.map (fun p => p.id)).Nodup
        ∧ ∀ e ∈ sampleEvents, pageIdsNodup e = true)
      ∧ ((runEvents sampleStart sampleEvents).allPokemon.map (fun p => p.id)).Nodup :=
  ⟨⟨by decide, by decide⟩,
    accumulatedList_ids_nodup sampleStart sampleEvents (by decide) (by decide)⟩

/-- C1 fails as literally stated ("over arbitrary result pages"): a single
offset-0 page whose two resources parse to the same id 1 is stored without
within-page deduplication, so the accumulated list holds a duplicate id. -/
theorem accumulatedList_dup_ids_counterexample :
    ¬ (((onFetchSettled 0
          { results := [{ name := "a", url := "x/1/" }, { name := "b", url := "x/1/" }]
            next := none }
          (initialState { list := none, pag := none })).allPokemon.map
            (fun p => p.id)).Nodup) := by
  decide

/-- C2: after every settled successful fetch — on both the offset-0 replacement
path and the offset > 0 append path — `paginationState.totalLoaded` equals the
length of the accumulated list. -/
theorem totalLoaded_eq_accumulated_length (now : Int) (resp : PokemonListResponse)
    (s : CoordState) :
    (onFetchSettled now resp s).paginationState.totalLoaded
      = ((onFetchSettled now resp s).allPokemon.length : Int) := by
  unfold onFetchSettled
  split
  · simp
  · simp [List.length_append]

/-- C3: for every fetch settled at offset > 0, the prior accumulated entries are
preserved as a prefix (same entries, same order), and exactly those parsed page
items whose id is not already present are appended at the end, in page order. -/
theorem offsetPos_preserves_prefix_appends_unseen (now : Int) (resp : PokemonListResponse)
    (s : CoordState) (h : s.currentOffset ≠ 0) :
    (onFetchSettled now resp s).allPokemon.take s.allPokemon.length = s.allPokemon
      ∧ (onFetchSettled now resp s).allPokemon.drop s.allPokemon.length
          = (parsePage resp.results).filter
              (fun p => decide (p.id ∉ s.allPokemon.map (fun q => q.id))) := by
  rw [settled_allPokemon_of_offsetPos now resp s h]
  unfold mergePage
  constructor
  · exact List.take_left _ _
  · rw [List.drop_left]
    apply List.filter_congr
    intro x _
    show (!(List.contains (s.allPokemon.map (fun p => p.id)) x.id))
        = decide (x.id ∉ s.allPokemon.map (fun q => q.id))
    rw [decide_not,
      show List.contains (s.allPokemon.map (fun p => p.id)) x.id
          = List.elem x.id (s.allPokemon.map (fun p => p.id)) from rfl,
      List.elem_eq_mem]

/-- Witness for C3 at a concrete state (offset 20, one item with id 1) and a
concrete page (ids 2, 3). -/
theorem offsetPos_preserves_prefix_appends_unseen_witness :
    (sampleState.currentOffset ≠ 0)
      ∧ ((onFetchSettled 7 samplePage sampleState).allPokemon.take
            sampleState.allPokemon.length = sampleState.allPokemon
        ∧ (onFetchSettled 7 samplePage sampleState).allPokemon.drop
            sampleState.allPokemon.length
          = (parsePage samplePage.results).filter
              (fun p => decide (p.id ∉ sampleState.allPokemon.map (fun q => q.id)))) :=
  ⟨by decide, offsetPos_preserves_prefix_appends_unseen 7 samplePage sampleState (by decide)⟩

/-- C4: for every fetch settled at offset 0 the accumulated list is replaced
wholesale by the parsed page (id from the second-to-last `/`-segment of the
url, paired with the name); no prior entry survives unless its id is in the
new page. -/
theorem offset0_wholesale_replacement (now : Int) (resp : PokemonListResponse)
    (s : CoordState) (h : s.currentOffset = 0) :
    (onFetchSettled now resp s).allPokemon = resp.results.map specParsedItem
      ∧ ∀ p ∈ s.allPokemon,
          p.id ∉ ((onFetchSettled now resp s).allPokemon.map (fun q => q.id)) →
            p ∉ (onFetchSettled now resp s).allPokemon := by
  have hrep := settled_allPokemon_of_offset0 now resp s h
  constructor
  · rw [hrep]
    unfold parsePage
    exact List.map_congr_left (fun r _ => parsePokemon_eq_specParsedItem r)
  · intro p _ hid hmem
    exact hid (List.mem_map_of_mem (fun q => q.id) hmem)

/-- Witness for C4 at a concrete offset-0 state and page. -/
theorem offset0_wholesale_replacement_witness :
    (sampleStart.currentOffset = 0)
      ∧ ((onFetchSettled 0 samplePage sampleStart).allPokemon
            = samplePage.results.map specParsedItem
        ∧ ∀ p ∈ sampleStart.allPokemon,
            p.id ∉ ((onFetchSettled 0 samplePage sampleStart).allPokemon.map (fun q => q.id)) →
              p ∉ (onFetchSettled 0 samplePage sampleStart).allPokemon) :=
  ⟨by decide, offset0_wholesale_replacement 0 samplePage sampleStart (by decide)⟩

/-- C5: on initialize with both cache entries present and fresh
(`now - lastFetchTime < CACHE_DURATION`), the coordinator hydrates list and
pagination state from the cache, sets `currentOffset = currentPage * 20`,
clears `isInitialLoading`, and issues no fetch: `skipQuery` stays `true` and
the store is untouched. -/
theorem initialize_hydrates_from_fresh_cache (now : Int) (st : CacheStore)
    (l : List CachedPokemon) (pg : PaginationState)
    (hl : st.list = some l) (hp : st.pag = some pg)
    (hfresh : now - pg.lastFetchTime < CACHE_DURATION) :
    loadCachedData now (initialState st)
      = { allPokemon := l
          paginationState := pg
          currentOffset := pg.currentPage * ITEMS_PER_PAGE
          skipQuery := true
          isInitialLoading := false
          error := none
          isLoadingMore := false
          isFetching := false
          store := st } := by
  simp [loadCachedData, loadPokemonList, loadPaginationState, initialState, hl, hp, hfresh]

/-- Witness for C5 at a concrete fresh cache (`lastFetchTime = 100`, `now = 200`). -/
theorem initialize_hydrates_from_fresh_cache_witness :
    (sampleFreshStore.list = some [{ id := some 1, name := "bulbasaur" }]
        ∧ sampleFreshStore.pag
            = some { currentPage := 1, totalLoaded := 20, hasMore := true, lastFetchTime := 100 }
        ∧ (200 : Int) - 100 < CACHE_DURATION)
      ∧ loadCachedData 200 (initialState sampleFreshStore)
          = { allPokemon := [{ id := some 1, name := "bulbasaur" }]
              paginationState := { currentPage := 1, totalLoaded := 20, hasMore := true, lastFetchTime := 100 }
              currentOffset := 1 * ITEMS_PER_PAGE
              skipQuery := true
              isInitialLoading := false
              error := none
              isLoadingMore := false
              isFetching := false
              store := sampleFreshStore } :=
  ⟨⟨by decide, by decide, by decide⟩,
    initialize_hydrates_from_fresh_cache 200 sampleFreshStore _ _ (by decide) (by decide) (by decide)⟩

/-- C6 (amended): on initialize with the cache absent or stale (an entry missing,
or `lastFetchTime` at least `CACHE_DURATION` old), the coordinator sets
`currentOffset = 0`, opens the fetch gate (`skipQuery = false`) and clears
`isInitialLoading`; the store is cleared only when BOTH entries are present
(and stale) — when an entry is missing, whatever is in the store is left as is
(see the counterexample). -/
theorem initialize_absent_or_stale (now : Int) (st : CacheStore)
    (h : cacheValidB now st = false) :
    (loadCachedData now (initialState st)).currentOffset = 0
      ∧ (loadCachedData now (initialState st)).skipQuery = false
      ∧ (loadCachedData now (initialState st)).isInitialLoading = false
      ∧ (st.list ≠ none → st.pag ≠ none →
          (loadCachedData now (initialState st)).store = { list := none, pag := none })
      ∧ ((st.list = none ∨ st.pag = none) →
          (loadCachedData now (initialState st)).store = st) := by
  unfold cacheValidB at h
  cases hl : st.list with
  | none =>
    simp [loadCachedData, loadPokemonList, loadPaginationState, initialState, hl]
  | some l =>
    cases hp : st.pag with
    | none =>
      simp [loadCachedData, loadPokemonList, loadPaginationState, initialState, hl, hp]
    | some pg =>
      rw [hl, hp] at h
      simp only [decide_eq_false_iff_not] at h
      simp [loadCachedData, loadPokemonList, loadPaginationState, initialState,
        clearPokemonData, hl, hp, h]

/-- Witness for C6's amended theorem at a concrete stale cache (both entries
present, `lastFetchTime = 0`, `now = CACHE_DURATION`). -/
theorem initialize_absent_or_stale_witness :
    (cacheValidB CACHE_DURATION
        { list := some [], pag := some { currentPage := 0, totalLoaded := 0, hasMore := true, lastFetchTime := 0 } }
        = false)
      ∧ ((loadCachedData CACHE_DURATION (initialState
            { list := some [], pag := some { currentPage := 0, totalLoaded := 0, hasMore := true, lastFetchTime := 0 } })).currentOffset = 0
        ∧ (loadCachedData CACHE_DURATION (initialState
            { list := some [], pag := some { currentPage := 0, totalLoaded := 0, hasMore := true, lastFetchTime := 0 } })).skipQuery = false
        ∧ (loadCachedData CACHE_DURATION (initialState
            { list := some [], pag := some { currentPage := 0, totalLoaded := 0, hasMore := true, lastFetchTime := 0 } })).isInitialLoading = false
        ∧ (({ list := some [], pag := some { currentPage := 0, totalLoaded := 0, hasMore := true, lastFetchTime := 0 } } : CacheStore).list ≠ none →
            ({ list := some [], pag := some { currentPage := 0, totalLoaded := 0, hasMore := true, lastFetchTime := 0 } } : CacheStore).pag ≠ none →
            (loadCachedData CACHE_DURATION (initialState
              { list := some [], pag := some { currentPage := 0, totalLoaded := 0, hasMore := true, lastFetchTime := 0 } })).store
              = { list := none, pag := none })
        ∧ ((({ list := some [], pag := some { currentPage := 0, totalLoaded := 0, hasMore := true, lastFetchTime := 0 } } : CacheStore).list = none
              ∨ ({ list := some [], pag := some { currentPage := 0, totalLoaded := 0, hasMore := true, lastFetchTime := 0 } } : CacheStore).pag = none) →
            (loadCachedData CACHE_DURATION (initialState
              { list := some [], pag := some { currentPage := 0, totalLoaded := 0, hasMore := true, lastFetchTime := 0 } })).store
              = { list := some [], pag := some { currentPage := 0, totalLoaded := 0, hasMore := true, lastFetchTime := 0 } })) :=
  ⟨by decide,
    initialize_absent_or_stale CACHE_DURATION
      { list := some [], pag := some { currentPage := 0, totalLoaded := 0, hasMore := true, lastFetchTime := 0 } }
      (by decide)⟩

/-- C6 fails as literally stated ("any stale cache entries present in the store
are cleared"): with the list entry absent and a stale pagination entry present
(`lastFetchTime = 0`, `now = CACHE_DURATION`, so the entry is at least
`CACHE_DURATION` old), initialize leaves the stale entry in the store — the
code only clears when BOTH entries are present. -/
theorem stale_entry_not_cleared_counterexample :
    ¬ (CACHE_DURATION - (0 : Int) < CACHE_DURATION)
      ∧ (loadCachedData CACHE_DURATION (initialState
            { list := none
              pag := some { currentPage := 1, totalLoaded := 20, hasMore := true, lastFetchTime := 0 } })).store
          = { list := none
              pag := some { currentPage := 1, totalLoaded := 20, hasMore := true, lastFetchTime := 0 } } :=
  ⟨by decide, by decide⟩

/-- C7: `loadMoreData` in any state where a fetch is in flight, or a load-more is
already pending, or `hasMore` is false, leaves the entire coordinator state
unchanged. -/
theorem loadMore_noop_when_busy_or_exhausted (s : CoordState)
    (h : s.isFetching = true ∨ s.isLoadingMore = true ∨ s.paginationState.hasMore = false) :
    loadMoreData s = s := by
  unfold loadMoreData
  rcases h with h | h | h <;> rw [if_neg (by simp [h])]

/-- Witness for C7 at a concrete state with a fetch in flight. -/
theorem loadMore_noop_witness :
    (({ sampleState with isFetching := true } : CoordState).isFetching = true
        ∨ ({ sampleState with isFetching := true } : CoordState).isLoadingMore = true
        ∨ ({ sampleState with isFetching := true } : CoordState).paginationState.hasMore = false)
      ∧ loadMoreData { sampleState with isFetching := true }
          = { sampleState with isFetching := true } :=
  ⟨Or.inl (by decide),
    loadMore_noop_when_busy_or_exhausted { sampleState with isFetching := true }
      (Or.inl (by decide))⟩

/-- C8: on every fetch failure the error is set to exactly
`"Failed to fetch Pokemon data"`, the fetch gate is closed (`skipQuery = true`)
and `isLoadingMore` is cleared, while list, pagination state, offset, store and
`isInitialLoading` are untouched (no automatic re-fetch); and `handleRetryLoadMore`
clears the error and then invokes `loadMoreData`, subject to all of its guards. -/
theorem fetch_failure_and_retry (s : CoordState) :
    (onFetchFailed s).error = some "Failed to fetch Pokemon data"
      ∧ (onFetchFailed s).skipQuery = true
      ∧ (onFetchFailed s).isLoadingMore = false
      ∧ (onFetchFailed s).allPokemon = s.allPokemon
      ∧ (onFetchFailed s).paginationState = s.paginationState
      ∧ (onFetchFailed s).currentOffset = s.currentOffset
      ∧ (onFetchFailed s).store = s.store
      ∧ (onFetchFailed s).isInitialLoading = s.isInitialLoading
      ∧ handleRetryLoadMore s = loadMoreData { s with error := none } :=
  ⟨rfl, rfl, rfl, rfl, rfl, rfl, rfl, rfl, rfl⟩

/-- C10: `handleRefresh` does not modify `isInitialLoading` — the flag keeps its
prior value even though the accumulated list is emptied, the offset reset to 0
and the fetch gate opened. -/
theorem refresh_preserves_isInitialLoading (s : CoordState) :
    (handleRefresh s).isInitialLoading = s.isInitialLoading
      ∧ (handleRefresh s).allPokemon = []
      ∧ (handleRefresh s).currentOffset = 0
      ∧ (handleRefresh s).skipQuery = false :=
  ⟨rfl, rfl, rfl, rfl⟩
